import Mathlib

/-!
Shallow embedding of the compliance-tracking backend (src/backend/server.py).

Conventions:
* timestamps are integer minutes (`ℤ`); `timedelta(days=n)` is `n * 1440` minutes,
  30 days = 43200, 7 days = 10080, 14 days = 20160;
* Python floats are modelled as rationals (`ℚ`);
* Python `round(x, n)` (banker's rounding, half to even) is `pyRound n x`;
* MongoDB collections are Lean lists in insertion ("natural") order; `find` filters
  and preserves order, `.to_list(k)` takes the first `k` results, `.sort(f, 1)`
  is a stable ascending sort applied before the limit, `insert_one` appends,
  and `update_one` (without upsert) rewrites the first matching record only;
* `datetime.utcnow()` is an explicit `now : ℤ` parameter;
* fallible handlers return `Except String`.
-/

namespace Sandy

/-- Python `round` to an integer: round half to even (banker's rounding). -/
def pyRoundInt (q : ℚ) : ℤ :=
  let f : ℤ := ⌊q⌋
  let r : ℚ := q - (f : ℚ)
  if r < 1/2 then f
  else if 1/2 < r then f + 1
  else if f % 2 = 0 then f else f + 1

/-- Python `round(q, digits)`: banker's rounding at `digits` decimal places. -/
def pyRound (digits : ℕ) (q : ℚ) : ℚ :=
  ((pyRoundInt (q * ((10 : ℚ) ^ digits)) : ℤ) : ℚ) / ((10 : ℚ) ^ digits)

/-- Embeds `DeviceUsageSession` (server.py lines 85-94).  The optional fields
`end_time`, `duration_minutes`, `compliance_score` are always set by the only
writer, `receive_bluetooth_data`, so they are modelled as plain fields
(`session.get("duration_minutes", 0)` at the read sites then reads the field). -/
structure DeviceUsageSession where
  patient_id : String
  device_id : String
  start_time : ℤ
  end_time : ℤ
  duration_minutes : ℤ
  time_of_day : String
  compliance_score : ℚ
  created_at : ℤ
deriving DecidableEq

/-- Embeds `BluetoothDevice` (server.py lines 76-83). -/
structure BluetoothDevice where
  patient_id : String
  device_name : String
  device_id : String
  is_connected : Bool
  last_connected : Option ℤ
deriving DecidableEq

/-- Embeds `User` (server.py lines 62-68). -/
structure User where
  id : String
  name : String
  user_type : String
deriving DecidableEq

/-- Embeds `BluetoothData` (server.py lines 96-101): the request body of
`POST /bluetooth/data`.  Pydantic only enforces the field types: any integer
`usage_duration` (negative included) and any string `time_of_day` pass. -/
structure BluetoothData where
  patient_id : String
  device_id : String
  usage_duration : ℤ
  time_of_day : String
  timestamp : ℤ
deriving DecidableEq

/-- The database state: the three MongoDB collections used by the handlers,
in insertion order.

Modelled from the spec: the persistent session store is an external
collaborator whose queries can fail with `StorageUnavailable` (spec section 7);
`store_down` lists the patient ids whose session queries fail that way.  The
Python source under src/ only shows the happy path of the Motor driver, so the
failure mode is taken from the spec's words. -/
structure DB where
  users : List User
  bluetooth_devices : List BluetoothDevice
  usage_sessions : List DeviceUsageSession
  store_down : List String
deriving DecidableEq

def storageErrMsg : String := "StorageUnavailable"

def notFoundMsg : String := "Patient not found"

/-- `db.users.find_one({"id": pid})`: first user whose id matches. -/
def findOneUser (db : DB) (pid : String) : Option User :=
  db.users.find? (fun u => decide (u.id = pid))

/-- `db.bluetooth_devices.find_one({"patient_id": pid})`: first matching device. -/
def findOneDevice (db : DB) (pid : String) : Option BluetoothDevice :=
  db.bluetooth_devices.find? (fun d => decide (d.patient_id = pid))

/-- `db.usage_sessions.find({patient_id, created_at >= cutoff}).to_list(1000)`. -/
def sessionsSince (db : DB) (pid : String) (cutoff : ℤ) : List DeviceUsageSession :=
  (db.usage_sessions.filter
    (fun s => decide (s.patient_id = pid ∧ cutoff ≤ s.created_at))).take 1000

/-- `db.usage_sessions.find({patient_id, lo <= created_at < hi}).to_list(1000)`. -/
def sessionsBetween (db : DB) (pid : String) (lo hi : ℤ) : List DeviceUsageSession :=
  (db.usage_sessions.filter
    (fun s => decide (s.patient_id = pid ∧ lo ≤ s.created_at ∧ s.created_at < hi))).take 1000

/-- `find(...).sort("created_at", 1).to_list(1000)`: stable ascending sort by
`created_at`, then the 1000-record limit. -/
def sessionsSinceSorted (db : DB) (pid : String) (cutoff : ℤ) : List DeviceUsageSession :=
  (((db.usage_sessions.filter
      (fun s => decide (s.patient_id = pid ∧ cutoff ≤ s.created_at))).mergeSort
    (fun a b => decide (a.created_at ≤ b.created_at))).take 1000)

/-- Wraps a session-store read with the collaborator's failure mode. -/
def fetch (db : DB) (pid : String) (l : List DeviceUsageSession) :
    Except String (List DeviceUsageSession) :=
  if pid ∈ db.store_down then .error storageErrMsg else .ok l

/-- `update_one({"device_id": did, "patient_id": pid}, {"$set": {is_connected:
true, last_connected: now}})` without `upsert`: rewrites the first matching
record, creates nothing when no record matches. -/
def updateOneDevice (l : List BluetoothDevice) (did pid : String) (now : ℤ) :
    List BluetoothDevice :=
  match l with
  | [] => []
  | d :: rest =>
    if d.device_id = did ∧ d.patient_id = pid then
      { d with is_connected := true, last_connected := some now } :: rest
    else
      d :: updateOneDevice rest did pid now

/-- Embeds `receive_bluetooth_data` (server.py lines 172-200).  Returns the
created session and the new database state: the session is appended to
`usage_sessions`, then the device registry record matching
(`device_id`, `patient_id`) is marked connected (the WebSocket publish has no
effect on the stored state and is omitted).  There is no input validation
beyond the field types of `BluetoothData`. -/
def receive_bluetooth_data (db : DB) (now : ℤ) (data : BluetoothData) :
    DeviceUsageSession × DB :=
  let session : DeviceUsageSession :=
    { patient_id := data.patient_id
      device_id := data.device_id
      start_time := data.timestamp - data.usage_duration
      end_time := data.timestamp
      duration_minutes := data.usage_duration
      time_of_day := data.time_of_day
      compliance_score := min 100 ((data.usage_duration : ℚ) / 480 * 100)
      created_at := now }
  let db1 : DB := { db with usage_sessions := db.usage_sessions ++ [session] }
  let db2 : DB := { db1 with
    bluetooth_devices :=
      updateOneDevice db1.bluetooth_devices data.device_id data.patient_id now }
  (session, db2)

/-- Sum of `session.get("duration_minutes", 0)` over a list of sessions. -/
def totalDuration (l : List DeviceUsageSession) : ℤ :=
  (l.map (fun s => s.duration_minutes)).sum

/-- The trend record `{"direction": ..., "percentage": ...}`. -/
structure Trend where
  direction : String
  percentage : ℚ
deriving DecidableEq

/-- The branch structure of `calculate_usage_trend` (server.py lines 283-296)
as a function of the two week totals. -/
def trendOf (lastWeek prevWeek : ℤ) : Trend :=
  if prevWeek = 0 then
    if lastWeek > 0 then { direction := "increasing", percentage := 100 }
    else { direction := "stable", percentage := 0 }
  else
    let change : ℚ := ((lastWeek : ℚ) - (prevWeek : ℚ)) / (prevWeek : ℚ) * 100
    if change > 10 then { direction := "increasing", percentage := pyRound 1 change }
    else if change < -10 then { direction := "decreasing", percentage := pyRound 1 |change| }
    else { direction := "stable", percentage := pyRound 1 |change| }

/-- Embeds `calculate_usage_trend` (server.py lines 261-296): fetches the
last-7-day and previous-7-day session lists (each capped at 1000 records) and
classifies the change of their duration totals. -/
def calculate_usage_trend (db : DB) (now : ℤ) (pid : String) : Except String Trend := do
  let lastWeek ← fetch db pid (sessionsSince db pid (now - 10080))
  let prevWeek ← fetch db pid (sessionsBetween db pid (now - 20160) (now - 10080))
  pure (trendOf (totalDuration lastWeek) (totalDuration prevWeek))

/-- The response of `get_patient_compliance` (server.py lines 248-259). -/
structure ComplianceResp where
  patient_id : String
  patient_name : String
  total_sessions : ℕ
  total_duration_minutes : ℤ
  average_daily_usage : ℚ
  average_daily_hours : ℚ
  compliance_percentage : ℚ
  last_session : Option ℤ
  device_connected : Bool
  usage_trend : Trend
deriving DecidableEq

/-- Embeds `get_patient_compliance` (server.py lines 214-259): 404 when the
patient id resolves to no user, otherwise aggregates the sessions of the last
30 days (capped at 1000 records) into the compliance summary. -/
def get_patient_compliance (db : DB) (now : ℤ) (pid : String) :
    Except String ComplianceResp := do
  let user ← match findOneUser db pid with
    | none => Except.error notFoundMsg
    | some u => pure u
  let sessions ← fetch db pid (sessionsSince db pid (now - 43200))
  let device_connected : Bool := match findOneDevice db pid with
    | some d => d.is_connected
    | none => false
  let total_duration : ℤ := totalDuration sessions
  let average_daily_usage : ℚ :=
    if total_duration > 0 then (total_duration : ℚ) / 30 else 0
  let trend ← calculate_usage_trend db now pid
  pure {
    patient_id := pid
    patient_name := user.name
    total_sessions := sessions.length
    total_duration_minutes := total_duration
    average_daily_usage := average_daily_usage
    average_daily_hours := pyRound 2 (average_daily_usage / 60)
    compliance_percentage := min 100 ((total_duration : ℚ) / (30 * 8 * 60) * 100)
    last_session := (sessions.map (fun s => s.created_at)).max?
    device_connected := device_connected
    usage_trend := trend }

/-- Calendar day of a timestamp: `strftime("%Y-%m-%d")` keyed as the day
number, i.e. floor division of the minute count by 1440. -/
def dayOf (t : ℤ) : ℤ := t.fdiv 1440

/-- The `daily_usage` defaultdict of `get_patient_analytics` read back as a
total function: minutes recorded on calendar day `d`
(`daily_usage.get(date_key, 0)` returns 0 for an absent key, which equals the
empty sum). -/
def dailyUsage (l : List DeviceUsageSession) (d : ℤ) : ℤ :=
  ((l.filter (fun s => decide (dayOf s.created_at = d))).map
    (fun s => s.duration_minutes)).sum

/-- The distinct calendar days carrying at least one fetched session: the key
set of the `daily_usage` defaultdict (a session of zero minutes still creates
its key). -/
def distinctDays (l : List DeviceUsageSession) : List ℤ :=
  (l.map (fun s => dayOf s.created_at)).dedup

/-- The per-session half of the analytics `for` loop: accumulate the day/night
totals, raising the `KeyError` of `day_night_usage[session["time_of_day"]]`
as soon as a session carries a `time_of_day` outside {day, night}. -/
def dayNightFold : List DeviceUsageSession → ℤ × ℤ → Except String (ℤ × ℤ)
  | [], acc => .ok acc
  | s :: rest, acc =>
    if s.time_of_day = "day" then dayNightFold rest (acc.1 + s.duration_minutes, acc.2)
    else if s.time_of_day = "night" then dayNightFold rest (acc.1, acc.2 + s.duration_minutes)
    else .error s.time_of_day

/-- One `DailyUsagePoint` `{date, usage_minutes, usage_hours}`. -/
structure DailyPoint where
  date : ℤ
  usage_minutes : ℤ
  usage_hours : ℚ
deriving DecidableEq

/-- `n` iterations of the time-series loop body starting at `current`:
emit the point for `current`'s calendar day, step by one day. -/
def timeSeriesAux (du : ℤ → ℤ) : ℤ → ℕ → List DailyPoint
  | _, 0 => []
  | current, n + 1 =>
    { date := dayOf current
      usage_minutes := du (dayOf current)
      usage_hours := pyRound 2 ((du (dayOf current) : ℚ) / 60) } ::
    timeSeriesAux du (current + 1440) n

/-- The `while current_date <= now` loop of `get_patient_analytics` (server.py
lines 318-327), written by its iteration count: starting at `start ≤ now` and
stepping one day, the body runs `(now - start) / 1440 + 1` times. -/
def timeSeries (du : ℤ → ℤ) (now start : ℤ) : List DailyPoint :=
  timeSeriesAux du start (if start ≤ now then (now - start).toNat / 1440 + 1 else 0)

/-- The response of `get_patient_analytics` (server.py lines 329-336). -/
structure AnalyticsResp where
  time_series : List DailyPoint
  day_usage : ℤ
  night_usage : ℤ
  total_days : ℕ
  active_days : ℕ
  average_daily_minutes : ℚ
  average_daily_hours : ℚ
deriving DecidableEq

/-- Embeds `get_patient_analytics` (server.py lines 298-336): fetch the window
(ascending by `created_at`, capped at 1000 records), bucket by calendar day and
by day/night, and produce the dense daily time series from `now - days` to
`now`. -/
def get_patient_analytics (db : DB) (now : ℤ) (pid : String) (days : ℕ) :
    Except String AnalyticsResp := do
  let start : ℤ := now - (days : ℤ) * 1440
  let sessions ← fetch db pid (sessionsSinceSorted db pid start)
  let dn ← dayNightFold sessions (0, 0)
  let du : ℤ → ℤ := dailyUsage sessions
  let dd : List ℤ := distinctDays sessions
  let valuesSum : ℤ := (dd.map du).sum
  pure {
    time_series := timeSeries du now start
    day_usage := dn.1
    night_usage := dn.2
    total_days := dd.length
    active_days := (dd.filter (fun d => decide (du d > 0))).length
    average_daily_minutes := (valuesSum : ℚ) / (max dd.length 1 : ℕ)
    average_daily_hours := pyRound 2 ((valuesSum : ℚ) / (max dd.length 1 : ℕ) / 60) }

/-- The `PatientCompliance` pydantic model (server.py lines 103-111): the shape
of the zero-valued fallback entry of the roster. -/
structure PatientCompliance where
  patient_id : String
  patient_name : String
  total_sessions : ℕ
  total_duration_minutes : ℤ
  average_daily_usage : ℚ
  compliance_percentage : ℚ
  last_session : Option ℤ
  device_connected : Bool
deriving DecidableEq

/-- One roster entry: either the full compliance response (the `try` branch) or
the zero-valued `PatientCompliance` fallback (the `except` branch). -/
inductive RosterEntry where
  | full (r : ComplianceResp)
  | fallback (r : PatientCompliance)
deriving DecidableEq

/-- Embeds `get_doctor_patients` (server.py lines 338-362): list every stored
user of type patient (capped at 100 by `to_list(100)`), and for each one either
return its compliance response or, when `get_patient_compliance` raises,
the zero-valued placeholder; the bare `except` swallows every failure. -/
def get_doctor_patients (db : DB) (now : ℤ) : List RosterEntry :=
  ((db.users.filter (fun u => decide (u.user_type = "patient"))).take 100).map
    (fun p =>
      match get_patient_compliance db now p.id with
      | .ok r => .full r
      | .error _ => .fallback {
          patient_id := p.id
          patient_name := p.name
          total_sessions := 0
          total_duration_minutes := 0
          average_daily_usage := 0
          compliance_percentage := 0
          last_session := none
          device_connected := false })

/-! ### Concrete states used by the counterexamples and witnesses -/

/-- An empty database. -/
def dbEmpty : DB := { users := [], bluetooth_devices := [], usage_sessions := [], store_down := [] }

/-- One resolvable patient, no sessions, no devices. -/
def dbOnePatient : DB := {
  users := [{ id := "p", name := "Alice", user_type := "patient" }]
  bluetooth_devices := []
  usage_sessions := []
  store_down := [] }

/-! ### Shared helper lemmas -/

theorem foldl_max_replicate (a : ℤ) : ∀ n : ℕ, (List.replicate n a).foldl max a = a := by
  intro n
  induction n with
  | zero => rfl
  | succ k ih => rw [List.replicate_succ, List.foldl_cons, max_self]; exact ih

theorem max_replicate_succ (n : ℕ) (a : ℤ) : (List.replicate (n + 1) a).max? = some a := by
  rw [List.replicate_succ]
  show some ((List.replicate n a).foldl max a) = some a
  rw [foldl_max_replicate]

/-! ### C2: per-session compliance score -/

/-- C2: for every non-negative usage duration, `receive_bluetooth_data` stores a
session whose compliance score equals `min(100, duration / 480 * 100)`; the
score is monotone non-decreasing in the duration and never exceeds 100. -/
theorem c2_compliance_score (db : DB) (now : ℤ) (data data2 : BluetoothData)
    (h0 : 0 ≤ data.usage_duration)
    (hle : data.usage_duration ≤ data2.usage_duration) :
    (receive_bluetooth_data db now data).1.compliance_score =
      min 100 ((data.usage_duration : ℚ) / 480 * 100)
    ∧ (receive_bluetooth_data db now data).1 ∈
        (receive_bluetooth_data db now data).2.usage_sessions
    ∧ (receive_bluetooth_data db now data).1.compliance_score ≤
        (receive_bluetooth_data db now data2).1.compliance_score
    ∧ (receive_bluetooth_data db now data).1.compliance_score ≤ 100 := by
  refine ⟨rfl, ?_, ?_, ?_⟩
  · simp only [receive_bluetooth_data]
    exact List.mem_append.2 (Or.inr (List.mem_singleton.2 rfl))
  · show min 100 ((data.usage_duration : ℚ) / 480 * 100) ≤
      min 100 ((data2.usage_duration : ℚ) / 480 * 100)
    have h : ((data.usage_duration : ℚ)) ≤ ((data2.usage_duration : ℚ)) := by
      exact_mod_cast hle
    gcongr
  · exact min_le_left _ _

/-- C2 witness: the score of a 240-minute session is 50, at most 100, and at
most the score of a 480-minute session. -/
theorem c2_witness :
    (0 : ℤ) ≤ 240 ∧ (240 : ℤ) ≤ 480 ∧
    ((receive_bluetooth_data dbEmpty 500
        { patient_id := "p", device_id := "d", usage_duration := 240,
          time_of_day := "day", timestamp := 500 }).1.compliance_score =
      min 100 ((240 : ℚ) / 480 * 100)
    ∧ (receive_bluetooth_data dbEmpty 500
        { patient_id := "p", device_id := "d", usage_duration := 240,
          time_of_day := "day", timestamp := 500 }).1 ∈
        (receive_bluetooth_data dbEmpty 500
        { patient_id := "p", device_id := "d", usage_duration := 240,
          time_of_day := "day", timestamp := 500 }).2.usage_sessions
    ∧ (receive_bluetooth_data dbEmpty 500
        { patient_id := "p", device_id := "d", usage_duration := 240,
          time_of_day := "day", timestamp := 500 }).1.compliance_score ≤
        (receive_bluetooth_data dbEmpty 500
        { patient_id := "p", device_id := "d", usage_duration := 480,
          time_of_day := "day", timestamp := 500 }).1.compliance_score
    ∧ (receive_bluetooth_data dbEmpty 500
        { patient_id := "p", device_id := "d", usage_duration := 240,
          time_of_day := "day", timestamp := 500 }).1.compliance_score ≤ 100) :=
  ⟨by decide, by decide,
    c2_compliance_score dbEmpty 500
      { patient_id := "p", device_id := "d", usage_duration := 240,
        time_of_day := "day", timestamp := 500 }
      { patient_id := "p", device_id := "d", usage_duration := 480,
        time_of_day := "day", timestamp := 500 }
      (by decide) (by decide)⟩

/-! ### C4: missing input validation -/

/-- A request with a negative duration and a `time_of_day` outside the
{day, night} enumeration. -/
def badInput : BluetoothData :=
  { patient_id := "p", device_id := "d", usage_duration := -5,
    time_of_day := "evening", timestamp := 1000 }

/-- C4: the code performs no input validation: the request with
`usage_duration = -5` and `time_of_day = "evening"` is accepted and a session
is written (with a negative compliance score and `start_time` after
`end_time`), where the claim requires an invalid-input rejection before any
write. -/
theorem c4_no_validation :
    (receive_bluetooth_data dbEmpty 1000 badInput).2.usage_sessions =
      [{ patient_id := "p", device_id := "d", start_time := 1005, end_time := 1000,
         duration_minutes := -5, time_of_day := "evening",
         compliance_score := -25/24, created_at := 1000 }] := by
  with_unfolding_all rfl

/-! ### C8: determinism of getCompliance -/

/-- C8: `get_patient_compliance` is a pure function of the stored state and the
current time: a second call over the same state (no intervening write) returns
the identical result. -/
theorem c8_deterministic (db db2 : DB) (now : ℤ) (pid : String) (h : db2 = db) :
    get_patient_compliance db2 now pid = get_patient_compliance db now pid := by
  rw [h]

/-- C8 witness: two calls over the unchanged one-patient state agree. -/
theorem c8_witness :
    dbOnePatient = dbOnePatient ∧
    get_patient_compliance dbOnePatient 86400 "p" =
      get_patient_compliance dbOnePatient 86400 "p" :=
  ⟨rfl, c8_deterministic dbOnePatient dbOnePatient 86400 "p" rfl⟩

/-! ### C3: trend classification -/

/-- C3: the trend classification as a function of the two week totals, exactly
as the claim states it, with the three concrete instances, and the tie to the
route: `calculate_usage_trend` applies the classification to the totals of the
claim's two windows, `[now-7d, now)` for recent and `[now-14d, now-7d)` for
previous (under the physical invariant that every stored `created_at` precedes
the query time, and with at most 1000 sessions for the patient). -/
theorem c3_trend_classification :
    (∀ recent previous : ℤ, previous = 0 → 0 < recent →
        trendOf recent previous = { direction := "increasing", percentage := 100 })
    ∧ (∀ recent previous : ℤ, previous = 0 → recent = 0 →
        trendOf recent previous = { direction := "stable", percentage := 0 })
    ∧ (∀ recent previous : ℤ, previous ≠ 0 →
        (10 < ((recent : ℚ) - previous) / previous * 100 →
          trendOf recent previous =
            { direction := "increasing", percentage := pyRound 1 (((recent : ℚ) - previous) / previous * 100) })
        ∧ (((recent : ℚ) - previous) / previous * 100 < -10 →
          trendOf recent previous =
            { direction := "decreasing", percentage := pyRound 1 |((recent : ℚ) - previous) / previous * 100| })
        ∧ (-10 ≤ ((recent : ℚ) - previous) / previous * 100 →
            ((recent : ℚ) - previous) / previous * 100 ≤ 10 →
          trendOf recent previous =
            { direction := "stable", percentage := pyRound 1 |((recent : ℚ) - previous) / previous * 100| }))
    ∧ trendOf 700 500 = { direction := "increasing", percentage := 40 }
    ∧ trendOf 500 700 = { direction := "decreasing", percentage := 286/10 }
    ∧ trendOf 100 95 = { direction := "stable", percentage := 53/10 }
    ∧ (∀ (db : DB) (now : ℤ) (pid : String), pid ∉ db.store_down →
        (∀ s ∈ db.usage_sessions, s.patient_id = pid → s.created_at < now) →
        (db.usage_sessions.filter (fun s => decide (s.patient_id = pid))).length ≤ 1000 →
        calculate_usage_trend db now pid = Except.ok
          (trendOf
            (totalDuration (db.usage_sessions.filter (fun s =>
              decide (s.patient_id = pid ∧ now - 10080 ≤ s.created_at ∧ s.created_at < now))))
            (totalDuration (db.usage_sessions.filter (fun s =>
              decide (s.patient_id = pid ∧ now - 20160 ≤ s.created_at ∧
                s.created_at < now - 10080)))))) := by
  refine ⟨?_, ?_, ?_, by with_unfolding_all rfl, by with_unfolding_all rfl,
    by with_unfolding_all rfl, ?_⟩
  · intro recent previous h0 hpos
    subst h0
    simp only [trendOf, if_pos rfl, if_pos hpos]
    simp
  · intro recent previous h0 hr
    subst h0; subst hr
    simp only [trendOf, if_pos rfl, lt_irrefl, if_false]
    norm_num
  · intro recent previous hne
    refine ⟨?_, ?_, ?_⟩
    · intro h
      simp only [trendOf, if_neg hne]
      rw [if_pos h]
    · intro h
      simp only [trendOf, if_neg hne]
      rw [if_neg (by push_neg; linarith), if_pos h]
    · intro h1 h2
      simp only [trendOf, if_neg hne]
      rw [if_neg (by push_neg; exact h2), if_neg (by push_neg; exact h1)]
  · intro db now pid hup hpast hcard
    have hrec : sessionsSince db pid (now - 10080) =
        db.usage_sessions.filter (fun s =>
          decide (s.patient_id = pid ∧ now - 10080 ≤ s.created_at ∧ s.created_at < now)) := by
      unfold sessionsSince
      rw [List.filter_congr (fun s hs => ?_), List.take_of_length_le ?_]
      · have hsub : (db.usage_sessions.filter (fun s =>
            decide (s.patient_id = pid ∧ now - 10080 ≤ s.created_at ∧ s.created_at < now))).length ≤
            (db.usage_sessions.filter (fun s => decide (s.patient_id = pid))).length := by
          have heq : ∀ l : List DeviceUsageSession, (l.filter (fun s =>
              decide (s.patient_id = pid ∧ now - 10080 ≤ s.created_at ∧ s.created_at < now))) =
              ((l.filter (fun s => decide (s.patient_id = pid))).filter (fun s =>
                decide (now - 10080 ≤ s.created_at ∧ s.created_at < now))) := by
            intro l
            rw [List.filter_filter]
            exact List.filter_congr (fun s hs => by
              simp [Bool.decide_and, Bool.and_comm, Bool.and_assoc])
          rw [heq]
          exact List.length_filter_le _ _
        exact le_trans hsub hcard
      · by_cases hp : s.patient_id = pid
        · have := hpast s hs hp
          simp [hp, this]
        · simp [hp]
    have hprev : sessionsBetween db pid (now - 20160) (now - 10080) =
        db.usage_sessions.filter (fun s =>
          decide (s.patient_id = pid ∧ now - 20160 ≤ s.created_at ∧
            s.created_at < now - 10080)) := by
      unfold sessionsBetween
      rw [List.take_of_length_le ?_]
      have hsub : (db.usage_sessions.filter (fun s =>
          decide (s.patient_id = pid ∧ now - 20160 ≤ s.created_at ∧
            s.created_at < now - 10080))).length ≤
          (db.usage_sessions.filter (fun s => decide (s.patient_id = pid))).length := by
        have heq : (db.usage_sessions.filter (fun s =>
            decide (s.patient_id = pid ∧ now - 20160 ≤ s.created_at ∧
              s.created_at < now - 10080))) =
            ((db.usage_sessions.filter (fun s => decide (s.patient_id = pid))).filter (fun s =>
              decide (now - 20160 ≤ s.created_at ∧ s.created_at < now - 10080))) := by
          rw [List.filter_filter]
          exact List.filter_congr (fun s hs => by
            simp [Bool.decide_and, Bool.and_comm, Bool.and_assoc])
        rw [heq]
        exact List.length_filter_le _ _
      exact le_trans hsub hcard
    simp only [calculate_usage_trend, fetch, if_neg hup, hrec, hprev]
    rfl

/-- C3 witness: the empty-previous-week rule at the totals (recent 5,
previous 0). -/
theorem c3_witness :
    ((0 : ℤ) = 0 ∧ (0 : ℤ) < 5) ∧
    trendOf 5 0 = { direction := "increasing", percentage := 100 } :=
  ⟨⟨rfl, by decide⟩, c3_trend_classification.1 5 0 rfl (by decide)⟩

/-! ### C7: stored interval and the device-registry update -/

theorem updateOneDevice_no_match (did pid : String) (now : ℤ) :
    ∀ l : List BluetoothDevice,
      (∀ d ∈ l, ¬(d.device_id = did ∧ d.patient_id = pid)) →
      updateOneDevice l did pid now = l := by
  intro l
  induction l with
  | nil => intro _; rfl
  | cons d rest ih =>
    intro h
    rw [updateOneDevice, if_neg (h d (List.mem_cons_self d rest))]
    rw [ih (fun e he => h e (List.mem_cons_of_mem d he))]

theorem updateOneDevice_first_match (did pid : String) (now : ℤ) :
    ∀ (pre : List BluetoothDevice) (d : BluetoothDevice) (post : List BluetoothDevice),
      (∀ e ∈ pre, ¬(e.device_id = did ∧ e.patient_id = pid)) →
      d.device_id = did → d.patient_id = pid →
      updateOneDevice (pre ++ d :: post) did pid now =
        pre ++ { d with is_connected := true, last_connected := some now } :: post := by
  intro pre
  induction pre with
  | nil =>
    intro d post _ hd hp
    rw [List.nil_append, updateOneDevice, if_pos ⟨hd, hp⟩, List.nil_append]
  | cons e rest ih =>
    intro d post h hd hp
    rw [List.cons_append, updateOneDevice, if_neg (h e (List.mem_cons_self e rest))]
    rw [ih d post (fun x hx => h x (List.mem_cons_of_mem e hx)) hd hp, List.cons_append]

/-- C7 amended: for every accepted input, the stored session has
`start_time = timestamp - usage_duration`, `end_time = timestamp` (so
`end_time = start_time + duration_minutes`), and the device-registry update is
a last-writer-wins update of the first record matching
(`device_id`, `patient_id`): such a record is marked connected with
`last_connected = now` (the rest unchanged), and when no record matches the
registry is left unchanged — the update is not an upsert, so no record is
created. -/
theorem c7_interval_and_registry (db : DB) (now : ℤ) (data : BluetoothData) :
    ((receive_bluetooth_data db now data).1.start_time =
        data.timestamp - data.usage_duration)
    ∧ (receive_bluetooth_data db now data).1.end_time = data.timestamp
    ∧ ((receive_bluetooth_data db now data).1.end_time =
        (receive_bluetooth_data db now data).1.start_time +
          (receive_bluetooth_data db now data).1.duration_minutes)
    ∧ ((∀ d ∈ db.bluetooth_devices,
          ¬(d.device_id = data.device_id ∧ d.patient_id = data.patient_id)) →
        (receive_bluetooth_data db now data).2.bluetooth_devices =
          db.bluetooth_devices)
    ∧ (∀ (pre : List BluetoothDevice) (d : BluetoothDevice)
          (post : List BluetoothDevice),
        db.bluetooth_devices = pre ++ d :: post →
        (∀ e ∈ pre, ¬(e.device_id = data.device_id ∧ e.patient_id = data.patient_id)) →
        d.device_id = data.device_id → d.patient_id = data.patient_id →
        (receive_bluetooth_data db now data).2.bluetooth_devices =
          pre ++ { d with is_connected := true, last_connected := some now } :: post) := by
  refine ⟨rfl, rfl, ?_, ?_, ?_⟩
  · show data.timestamp = data.timestamp - data.usage_duration + data.usage_duration
    ring
  · intro h
    exact updateOneDevice_no_match data.device_id data.patient_id now
      db.bluetooth_devices h
  · intro pre d post hsplit hpre hd hp
    show updateOneDevice db.bluetooth_devices data.device_id data.patient_id now = _
    rw [hsplit]
    exact updateOneDevice_first_match data.device_id data.patient_id now
      pre d post hpre hd hp

/-- A well-formed usage report used by the C7 record. -/
def dayInput : BluetoothData :=
  { patient_id := "p", device_id := "d", usage_duration := 60,
    time_of_day := "day", timestamp := 1000 }

/-- C7 counterexample: the claim as stated is false — on a state whose device
registry has no record for (`d`, `p`), the accepted call leaves the registry
empty: no record keyed by (`deviceId`, `patientId`) exists after the call,
because `update_one` is called without `upsert`. -/
theorem c7_counterexample :
    (receive_bluetooth_data dbEmpty 1000 dayInput).2.bluetooth_devices = []
    ∧ (receive_bluetooth_data dbEmpty 1000 dayInput).2.usage_sessions.length = 1 := by
  refine ⟨?_, ?_⟩ <;> with_unfolding_all rfl

/-- The single registry record used by the C7 witness. -/
def espDevice : BluetoothDevice :=
  { patient_id := "p", device_name := "ESP Device", device_id := "d",
    is_connected := false, last_connected := none }

/-- A one-record device registry matching `dayInput`. -/
def dbOneDevice : DB := {
  users := []
  bluetooth_devices := [espDevice]
  usage_sessions := []
  store_down := [] }

/-- C7 witness: on the one-record registry, the call marks the record connected
with `last_connected = 1000`. -/
theorem c7_witness :
    (receive_bluetooth_data dbOneDevice 1000 dayInput).2.bluetooth_devices =
      [] ++ { espDevice with is_connected := true, last_connected := some 1000 } :: [] :=
  ((c7_interval_and_registry dbOneDevice 1000 dayInput).2.2.2.2 []
    espDevice [] (by with_unfolding_all rfl)
    (by intro e he; cases he) rfl rfl)

/-! ### C10: the day/night bucketing is partial -/

theorem dayNightFold_error :
    ∀ (l : List DeviceUsageSession) (acc : ℤ × ℤ),
      (∃ s ∈ l, s.time_of_day ≠ "day" ∧ s.time_of_day ≠ "night") →
      ∃ e, dayNightFold l acc = Except.error e := by
  intro l
  induction l with
  | nil =>
    intro acc h
    obtain ⟨s, hs, _⟩ := h
    cases hs
  | cons s rest ih =>
    intro acc h
    by_cases hd : s.time_of_day = "day"
    · rw [dayNightFold, if_pos hd]
      apply ih
      obtain ⟨t, ht, hbad⟩ := h
      rcases List.mem_cons.1 ht with rfl | ht2
      · exact absurd hd hbad.1
      · exact ⟨t, ht2, hbad⟩
    · by_cases hn : s.time_of_day = "night"
      · rw [dayNightFold, if_neg hd, if_pos hn]
        apply ih
        obtain ⟨t, ht, hbad⟩ := h
        rcases List.mem_cons.1 ht with rfl | ht2
        · exact absurd hn hbad.2
        · exact ⟨t, ht2, hbad⟩
      · exact ⟨s.time_of_day, by rw [dayNightFold, if_neg hd, if_neg hn]⟩

theorem dayNightFold_ok :
    ∀ (l : List DeviceUsageSession) (acc : ℤ × ℤ),
      (∀ s ∈ l, s.time_of_day = "day" ∨ s.time_of_day = "night") →
      ∃ r, dayNightFold l acc = Except.ok r := by
  intro l
  induction l with
  | nil => intro acc _; exact ⟨acc, rfl⟩
  | cons s rest ih =>
    intro acc h
    rcases h s (List.mem_cons_self s rest) with hd | hn
    · rw [dayNightFold, if_pos hd]
      exact ih _ (fun t ht => h t (List.mem_cons_of_mem s ht))
    · by_cases hd : s.time_of_day = "day"
      · rw [dayNightFold, if_pos hd]
        exact ih _ (fun t ht => h t (List.mem_cons_of_mem s ht))
      · rw [dayNightFold, if_neg hd, if_pos hn]
        exact ih _ (fun t ht => h t (List.mem_cons_of_mem s ht))

/-- The usage report with `time_of_day = "evening"` used for reachability. -/
def eveningData : BluetoothData :=
  { patient_id := "p", device_id := "d", usage_duration := 60,
    time_of_day := "evening", timestamp := 10000 }

/-- The database produced by ingesting the "evening" report into the empty
state. -/
def dbEvening : DB := (receive_bluetooth_data dbEmpty 10000 eveningData).2

/-- The session stored by that ingestion. -/
def eveningSession : DeviceUsageSession :=
  (receive_bluetooth_data dbEmpty 10000 eveningData).1

/-- C10: whenever a fetched session of the analytics window carries a
`time_of_day` outside {day, night}, `get_patient_analytics` fails (the
`KeyError` of the `day_night_usage` dictionary lookup); when every fetched
session is day or night the bucketing is total and the handler succeeds; and
the failing state is reachable, because `receive_bluetooth_data` accepts any
`time_of_day` string: ingesting an "evening" session into the empty state
makes the analytics call fail with that key. -/
theorem c10_day_night_bucketing :
    (∀ (db : DB) (now : ℤ) (pid : String) (days : ℕ),
      pid ∉ db.store_down →
      (∃ s ∈ sessionsSinceSorted db pid (now - (days : ℤ) * 1440),
        s.time_of_day ≠ "day" ∧ s.time_of_day ≠ "night") →
      ∃ e, get_patient_analytics db now pid days = Except.error e)
    ∧ (∀ (db : DB) (now : ℤ) (pid : String) (days : ℕ),
      pid ∉ db.store_down →
      (∀ s ∈ sessionsSinceSorted db pid (now - (days : ℤ) * 1440),
        s.time_of_day = "day" ∨ s.time_of_day = "night") →
      ∃ r, get_patient_analytics db now pid days = Except.ok r)
    ∧ get_patient_analytics dbEvening 10000 "p" 7 = Except.error "evening" := by
  refine ⟨?_, ?_, by with_unfolding_all rfl⟩
  · intro db now pid days hup hbad
    obtain ⟨e, he⟩ := dayNightFold_error
      (sessionsSinceSorted db pid (now - (days : ℤ) * 1440)) (0, 0) hbad
    refine ⟨e, ?_⟩
    simp only [get_patient_analytics, fetch, if_neg hup, bind, Except.bind, he]
  · intro db now pid days hup hgood
    obtain ⟨r, hr⟩ := dayNightFold_ok
      (sessionsSinceSorted db pid (now - (days : ℤ) * 1440)) (0, 0) hgood
    simp only [get_patient_analytics, fetch, if_neg hup, bind, Except.bind, hr,
      pure, Except.pure]
    exact ⟨_, rfl⟩

/-- C10 witness: the reachable "evening" state satisfies the failure branch's
hypotheses, and the theorem yields the failure. -/
theorem c10_witness :
    ("p" ∉ dbEvening.store_down) ∧
    (∃ s ∈ sessionsSinceSorted dbEvening "p" (10000 - (7 : ℕ) * 1440),
      s.time_of_day ≠ "day" ∧ s.time_of_day ≠ "night") ∧
    (∃ e, get_patient_analytics dbEvening 10000 "p" 7 = Except.error e) := by
  have hmem : eveningSession ∈ sessionsSinceSorted dbEvening "p" (10000 - (7 : ℕ) * 1440) := by
    have h : sessionsSinceSorted dbEvening "p" (10000 - (7 : ℕ) * 1440) = [eveningSession] := by
      with_unfolding_all rfl
    rw [h]
    exact List.mem_singleton.2 rfl
  refine ⟨by with_unfolding_all decide,
    ⟨eveningSession, hmem, by with_unfolding_all decide, by with_unfolding_all decide⟩, ?_⟩
  exact c10_day_night_bucketing.1 dbEvening 10000 "p" 7 (by with_unfolding_all decide)
    ⟨eveningSession, hmem, by with_unfolding_all decide, by with_unfolding_all decide⟩

/-! ### C6: roster shape and per-patient failure isolation -/

/-- C6 amended: the roster lists the stored patient-type identities in their
stored order, one entry each (capped at the first 100 by `to_list(100)`); a
patient whose compliance computation succeeds contributes its response, and a
patient whose computation fails for any reason contributes the zero-valued
placeholder — the failure never escapes `get_doctor_patients`. -/
theorem c6_roster (db : DB) (now : ℤ) :
    ((get_doctor_patients db now).length =
      ((db.users.filter (fun u => decide (u.user_type = "patient"))).take 100).length)
    ∧ (∀ (i : ℕ) (p : User),
        ((db.users.filter (fun u => decide (u.user_type = "patient"))).take 100)[i]? = some p →
        (∀ r, get_patient_compliance db now p.id = Except.ok r →
          (get_doctor_patients db now)[i]? = some (RosterEntry.full r))
        ∧ (∀ e, get_patient_compliance db now p.id = Except.error e →
          (get_doctor_patients db now)[i]? = some (RosterEntry.fallback
            { patient_id := p.id, patient_name := p.name, total_sessions := 0,
              total_duration_minutes := 0, average_daily_usage := 0,
              compliance_percentage := 0, last_session := none,
              device_connected := false }))) := by
  constructor
  · simp only [get_doctor_patients, List.length_map]
  · intro i p hp
    constructor
    · intro r hok
      simp only [get_doctor_patients, List.getElem?_map, hp, Option.map_some', hok]
    · intro e herr
      simp only [get_doctor_patients, List.getElem?_map, hp, Option.map_some', herr]

/-- One hundred and one stored patients. -/
def patientsC6 : List User :=
  (List.range 101).map (fun i => { id := toString i, name := toString i, user_type := "patient" })

def dbC6 : DB :=
  { users := patientsC6, bluetooth_devices := [], usage_sessions := [], store_down := [] }

/-- C6 counterexample: with 101 stored patient identities the roster has only
100 entries — `to_list(100)` drops the last patient, so the claim's "exactly
one entry per identity" fails for lists longer than 100. -/
theorem c6_counterexample :
    (dbC6.users.filter (fun u => decide (u.user_type = "patient"))).length = 101
    ∧ (get_doctor_patients dbC6 0).length = 100 := by
  have hf : dbC6.users.filter (fun u => decide (u.user_type = "patient")) = dbC6.users := by
    apply List.filter_eq_self.mpr
    intro a ha
    simp only [dbC6, patientsC6, List.mem_map] at ha
    obtain ⟨i, _, rfl⟩ := ha
    simp
  constructor
  · rw [hf]
    simp [dbC6, patientsC6]
  · simp only [get_doctor_patients, List.length_map, List.length_take, hf]
    simp [dbC6, patientsC6]

def bobUser : User := { id := "q", name := "Bob", user_type := "patient" }

/-- The zero-valued placeholder for `bobUser`. -/
def bobFallback : PatientCompliance :=
  { patient_id := "q", patient_name := "Bob", total_sessions := 0,
    total_duration_minutes := 0, average_daily_usage := 0,
    compliance_percentage := 0, last_session := none, device_connected := false }

/-- One stored patient whose session store is unavailable. -/
def dbC6w : DB :=
  { users := [bobUser], bluetooth_devices := [], usage_sessions := [], store_down := ["q"] }

/-- C6 witness: the patient with the unavailable store still occupies its
roster slot, holding the zero-valued placeholder. -/
theorem c6_witness :
    (((dbC6w.users.filter (fun u => decide (u.user_type = "patient"))).take 100)[0]? =
      some bobUser)
    ∧ get_patient_compliance dbC6w 0 "q" = Except.error storageErrMsg
    ∧ (get_doctor_patients dbC6w 0)[0]? = some (RosterEntry.fallback bobFallback) := by
  have h1 : ((dbC6w.users.filter (fun u => decide (u.user_type = "patient"))).take 100)[0]? =
      some bobUser := by with_unfolding_all rfl
  have h2 : get_patient_compliance dbC6w 0 "q" = Except.error storageErrMsg := by
    with_unfolding_all rfl
  exact ⟨h1, h2, ((c6_roster dbC6w 0).2 0 bobUser h1).2 storageErrMsg h2⟩

/-! ### C9: every aggregation query reads at most 1000 records -/

theorem totalDuration_replicate (n : ℕ) (s : DeviceUsageSession) :
    totalDuration (List.replicate n s) = n * s.duration_minutes := by
  unfold totalDuration
  rw [List.map_replicate, List.sum_replicate, nsmul_eq_mul]

def aliceUser : User := { id := "p", name := "Alice", user_type := "patient" }

/-- A one-minute session recorded at minute 86400. -/
def sC9 : DeviceUsageSession :=
  { patient_id := "p", device_id := "d", start_time := 86399, end_time := 86400,
    duration_minutes := 1, time_of_day := "day", compliance_score := 5/24,
    created_at := 86400 }

/-- 1001 one-minute sessions, all inside every lookback window. -/
def dbC9 : DB :=
  { users := [aliceUser], bluetooth_devices := [],
    usage_sessions := List.replicate 1001 sC9, store_down := [] }

/-- C9: each aggregation query (the 30-day compliance fetch, the two 7-day
trend fetches, the analytics window fetch) returns at most 1000 records; and
on 1001 matching one-minute sessions `get_patient_compliance` reports
`total_sessions = 1000` and `total_duration_minutes = 1000` although 1001
sessions totalling 1001 minutes match its window — the aggregates cover only a
1000-session subset. -/
theorem c9_query_cap :
    (∀ (db : DB) (pid : String) (cutoff : ℤ),
      (sessionsSince db pid cutoff).length ≤ 1000)
    ∧ (∀ (db : DB) (pid : String) (lo hi : ℤ),
      (sessionsBetween db pid lo hi).length ≤ 1000)
    ∧ (∀ (db : DB) (pid : String) (cutoff : ℤ),
      (sessionsSinceSorted db pid cutoff).length ≤ 1000)
    ∧ ((get_patient_compliance dbC9 86400 "p").map
        (fun r => (r.total_sessions, r.total_duration_minutes)) =
        Except.ok (1000, 1000))
    ∧ (dbC9.usage_sessions.filter
        (fun s => decide (s.patient_id = "p" ∧ 86400 - 43200 ≤ s.created_at))).length = 1001
    ∧ totalDuration (dbC9.usage_sessions.filter
        (fun s => decide (s.patient_id = "p" ∧ 86400 - 43200 ≤ s.created_at))) = 1001 := by
  have hfilter : dbC9.usage_sessions.filter
      (fun s => decide (s.patient_id = "p" ∧ 86400 - 43200 ≤ s.created_at)) =
      List.replicate 1001 sC9 := by
    show (List.replicate 1001 sC9).filter _ = List.replicate 1001 sC9
    apply List.filter_eq_self.mpr
    intro a ha
    rw [List.eq_of_mem_replicate ha]
    decide
  refine ⟨fun db pid cutoff => List.length_take_le 1000 _,
    fun db pid lo hi => List.length_take_le 1000 _,
    fun db pid cutoff => List.length_take_le 1000 _, ?_, ?_, ?_⟩
  · have hs : sessionsSince dbC9 "p" (86400 - 43200) = List.replicate 1000 sC9 := by
      unfold sessionsSince
      rw [hfilter, List.take_replicate]
      norm_num
    have hl : sessionsSince dbC9 "p" (86400 - 10080) = List.replicate 1000 sC9 := by
      unfold sessionsSince
      have h2 : dbC9.usage_sessions.filter
          (fun s => decide (s.patient_id = "p" ∧ 86400 - 10080 ≤ s.created_at)) =
          List.replicate 1001 sC9 := by
        show (List.replicate 1001 sC9).filter _ = List.replicate 1001 sC9
        apply List.filter_eq_self.mpr
        intro a ha
        rw [List.eq_of_mem_replicate ha]
        decide
      rw [h2, List.take_replicate]
      norm_num
    have hp : sessionsBetween dbC9 "p" (86400 - 20160) (86400 - 10080) = [] := by
      unfold sessionsBetween
      rw [List.filter_eq_nil_iff.mpr]
      · rfl
      · intro a ha
        rw [List.eq_of_mem_replicate (show a ∈ List.replicate 1001 sC9 from ha)]
        decide
    have hu : findOneUser dbC9 "p" = some aliceUser := rfl
    simp only [get_patient_compliance, calculate_usage_trend, hu, hs, hl, hp, fetch]
    simp only [dbC9, List.mem_nil_iff, if_false, bind, Except.bind, pure, Except.pure,
      Except.map]
    rw [totalDuration_replicate, List.length_replicate]
    norm_num [sC9]
  · rw [hfilter, List.length_replicate]
  · rw [hfilter, totalDuration_replicate]
    norm_num [sC9]

/-! ### C5: density of the analytics time series -/

theorem dayOf_add_mul (t : ℤ) (k : ℕ) : dayOf (t + k * 1440) = dayOf t + k := by
  unfold dayOf
  rw [Int.fdiv_eq_ediv _ (by norm_num), Int.fdiv_eq_ediv _ (by norm_num),
    Int.add_mul_ediv_right _ _ (by norm_num : (1440 : ℤ) ≠ 0)]

theorem timeSeriesAux_map_date (du : ℤ → ℤ) :
    ∀ (n : ℕ) (c : ℤ),
      (timeSeriesAux du c n).map (fun p => p.date) =
        (List.range n).map (fun k : ℕ => dayOf c + (k : ℤ)) := by
  intro n
  induction n with
  | zero => intro c; rfl
  | succ m ih =>
    intro c
    rw [timeSeriesAux, List.map_cons, ih (c + 1440), List.range_succ_eq_map,
      List.map_cons, List.map_map]
    have hstep : dayOf (c + 1440) = dayOf c + 1 := by
      have h := dayOf_add_mul c 1
      norm_num at h
      exact h
    congr 1
    · norm_num
    · apply List.map_congr_left
      intro k _
      simp only [Function.comp_apply, hstep]
      push_cast
      ring

theorem timeSeriesAux_usage (du : ℤ → ℤ) :
    ∀ (n : ℕ) (c : ℤ), ∀ p ∈ timeSeriesAux du c n, p.usage_minutes = du p.date := by
  intro n
  induction n with
  | zero => intro c p hp; cases hp
  | succ m ih =>
    intro c p hp
    rw [timeSeriesAux] at hp
    rcases List.mem_cons.1 hp with rfl | hp2
    · rfl
    · exact ih (c + 1440) p hp2

theorem timeSeries_steps (du : ℤ → ℤ) (now : ℤ) (days : ℕ) :
    timeSeries du now (now - (days : ℤ) * 1440) =
      timeSeriesAux du (now - (days : ℤ) * 1440) (days + 1) := by
  unfold timeSeries
  rw [if_pos (show now - (days : ℤ) * 1440 ≤ now by
    have h : (0 : ℤ) ≤ (days : ℤ) * 1440 := by positivity
    omega)]
  congr 1
  omega

theorem dailyUsage_eq_zero (l : List DeviceUsageSession) (d : ℤ)
    (h : ∀ s ∈ l, dayOf s.created_at ≠ d) : dailyUsage l d = 0 := by
  unfold dailyUsage
  rw [List.filter_eq_nil_iff.mpr]
  · rfl
  · intro s hs
    simp [h s hs]

/-- C5 amended: for every window, the analytics time series holds exactly one
point per calendar day from the day of `windowStart = now - days` to the day of
`now` — `days + 1` consecutive calendar days, one point each — with
`usage_minutes` equal to the fetched window's daily total, hence 0 on days
without sessions. -/
theorem c5_dense_daily_series (db : DB) (now : ℤ) (pid : String) (days : ℕ)
    (r : AnalyticsResp) (hup : pid ∉ db.store_down)
    (hok : get_patient_analytics db now pid days = Except.ok r) :
    (r.time_series.map (fun p => p.date) =
      (List.range (days + 1)).map (fun k : ℕ => dayOf (now - (days : ℤ) * 1440) + (k : ℤ)))
    ∧ (∀ p ∈ r.time_series,
        p.usage_minutes =
          dailyUsage (sessionsSinceSorted db pid (now - (days : ℤ) * 1440)) p.date)
    ∧ (∀ p ∈ r.time_series,
        (∀ s ∈ sessionsSinceSorted db pid (now - (days : ℤ) * 1440),
          dayOf s.created_at ≠ p.date) →
        p.usage_minutes = 0) := by
  rcases hdn : dayNightFold (sessionsSinceSorted db pid (now - (days : ℤ) * 1440)) (0, 0) with
    e | dn
  · rw [get_patient_analytics] at hok
    simp only [fetch, if_neg hup, bind, Except.bind, hdn] at hok
    cases hok
  · rw [get_patient_analytics] at hok
    simp only [fetch, if_neg hup, bind, Except.bind, hdn, pure, Except.pure,
      Except.ok.injEq] at hok
    subst hok
    refine ⟨?_, ?_, ?_⟩
    · show (timeSeries (dailyUsage (sessionsSinceSorted db pid (now - (days : ℤ) * 1440)))
        now (now - (days : ℤ) * 1440)).map (fun p => p.date) = _
      rw [timeSeries_steps, timeSeriesAux_map_date]
    · intro p hp
      exact timeSeriesAux_usage _ (days + 1) (now - (days : ℤ) * 1440) p
        (by rw [timeSeries_steps] at hp; exact hp)
    · intro p hp hempty
      have h1 : p.usage_minutes =
          dailyUsage (sessionsSinceSorted db pid (now - (days : ℤ) * 1440)) p.date :=
        timeSeriesAux_usage _ (days + 1) (now - (days : ℤ) * 1440) p
          (by rw [timeSeries_steps] at hp; exact hp)
      rw [h1, dailyUsage_eq_zero _ _ hempty]

/-- Query time of the 3-day scenario: minute 600 of calendar day 100. -/
def nowC5 : ℤ := 144600

/-- A 60-minute day session recorded on calendar day 97 (the first day of the
3-day window). -/
def sC5a : DeviceUsageSession :=
  { patient_id := "p", device_id := "d", start_time := 140240, end_time := 140300,
    duration_minutes := 60, time_of_day := "day", compliance_score := 25/2,
    created_at := 140300 }

/-- A 30-minute night session recorded on calendar day 99 (the third day of the
3-day window). -/
def sC5b : DeviceUsageSession :=
  { patient_id := "p", device_id := "d", start_time := 142570, end_time := 142600,
    duration_minutes := 30, time_of_day := "night", compliance_score := 25/4,
    created_at := 142600 }

def dbC5 : DB :=
  { users := [aliceUser], bluetooth_devices := [], usage_sessions := [sC5a, sC5b],
    store_down := [] }

/-- C5 counterexample: over a 3-day window with sessions only on the first and
third window days, the series has 4 entries — one per calendar day 97..100 —
not the claimed 3; `total_days = 2` and `active_days = 2` do hold. -/
theorem c5_counterexample :
    ((get_patient_analytics dbC5 nowC5 "p" 3).map
      (fun r => (r.time_series.length, r.total_days, r.active_days)) =
      Except.ok (4, 2, 2))
    ∧ dbC5.usage_sessions.map (fun s => dayOf s.created_at) = [97, 99]
    ∧ dayOf (nowC5 - 3 * 1440) = 97 ∧ dayOf nowC5 = 100 := by
  refine ⟨?_, ?_, ?_, ?_⟩ <;> with_unfolding_all rfl

/-- The analytics response of the 3-day scenario. -/
def rC5 : AnalyticsResp :=
  { time_series := [
      { date := 97, usage_minutes := 60, usage_hours := 1 },
      { date := 98, usage_minutes := 0, usage_hours := 0 },
      { date := 99, usage_minutes := 30, usage_hours := 1/2 },
      { date := 100, usage_minutes := 0, usage_hours := 0 }]
    day_usage := 60
    night_usage := 30
    total_days := 2
    active_days := 2
    average_daily_minutes := 45
    average_daily_hours := 3/4 }

/-- C5 witness: the dense-series theorem applied to the 3-day scenario. -/
theorem c5_witness :
    ("p" ∉ dbC5.store_down)
    ∧ get_patient_analytics dbC5 nowC5 "p" 3 = Except.ok rC5
    ∧ rC5.time_series.map (fun p => p.date) =
        (List.range (3 + 1)).map (fun k : ℕ => dayOf (nowC5 - ((3 : ℕ) : ℤ) * 1440) + (k : ℤ)) := by
  have h1 : "p" ∉ dbC5.store_down := by with_unfolding_all decide
  have h2 : get_patient_analytics dbC5 nowC5 "p" 3 = Except.ok rC5 := by
    with_unfolding_all rfl
  exact ⟨h1, h2, (c5_dense_daily_series dbC5 nowC5 "p" 3 rC5 h1 h2).1⟩

/-! ### C1: the compliance summary over the 30-day window -/

/-- C1 amended: for a resolvable patient whose stored sessions (at most 1000,
with non-negative durations) all have `created_at` in the last 30 days,
`get_patient_compliance` succeeds and returns `average_daily_usage =
total_duration_minutes / 30`, `compliance_percentage = min(100,
total_duration_minutes / (30*480) * 100)`, `last_session` the maximum
`created_at` over the patient's stored sessions (absent when there are none),
and, with zero stored sessions, `total_sessions = 0`,
`compliance_percentage = 0` and the stable/0 trend. -/
theorem c1_compliance_aggregates (db : DB) (now : ℤ) (pid : String) (u : User)
    (hu : findOneUser db pid = some u)
    (hup : pid ∉ db.store_down)
    (hwin : ∀ s ∈ db.usage_sessions, s.patient_id = pid →
      now - 43200 ≤ s.created_at ∧ s.created_at ≤ now)
    (hcard : (db.usage_sessions.filter (fun s => decide (s.patient_id = pid))).length ≤ 1000)
    (hdur : ∀ s ∈ db.usage_sessions, s.patient_id = pid → 0 ≤ s.duration_minutes) :
    ∃ r, get_patient_compliance db now pid = Except.ok r
      ∧ r.average_daily_usage = (r.total_duration_minutes : ℚ) / 30
      ∧ r.compliance_percentage = min 100 ((r.total_duration_minutes : ℚ) / (30 * 480) * 100)
      ∧ r.last_session = ((db.usage_sessions.filter
          (fun s => decide (s.patient_id = pid))).map (fun s => s.created_at)).max?
      ∧ r.total_sessions =
          (db.usage_sessions.filter (fun s => decide (s.patient_id = pid))).length
      ∧ r.total_duration_minutes =
          totalDuration (db.usage_sessions.filter (fun s => decide (s.patient_id = pid)))
      ∧ (db.usage_sessions.filter (fun s => decide (s.patient_id = pid)) = [] →
          r.total_sessions = 0 ∧ r.compliance_percentage = 0 ∧
          r.usage_trend = { direction := "stable", percentage := 0 }) := by
  have hs : sessionsSince db pid (now - 43200) =
      db.usage_sessions.filter (fun s => decide (s.patient_id = pid)) := by
    unfold sessionsSince
    have hfc : db.usage_sessions.filter
        (fun s => decide (s.patient_id = pid ∧ now - 43200 ≤ s.created_at)) =
        db.usage_sessions.filter (fun s => decide (s.patient_id = pid)) :=
      List.filter_congr (fun s hmem => by
        by_cases hp : s.patient_id = pid
        · simp [hp, (hwin s hmem hp).1]
        · simp [hp])
    rw [hfc, List.take_of_length_le hcard]
  have htr : calculate_usage_trend db now pid = Except.ok
      (trendOf (totalDuration (sessionsSince db pid (now - 10080)))
        (totalDuration (sessionsBetween db pid (now - 20160) (now - 10080)))) := by
    simp only [calculate_usage_trend, fetch, if_neg hup]
    rfl
  have h0 : 0 ≤ totalDuration
      (db.usage_sessions.filter (fun s => decide (s.patient_id = pid))) := by
    apply List.sum_nonneg
    intro x hx
    rw [List.mem_map] at hx
    obtain ⟨s, hsmem, rfl⟩ := hx
    rw [List.mem_filter] at hsmem
    exact hdur s hsmem.1 (by simpa using hsmem.2)
  simp only [get_patient_compliance, hu, htr, fetch, if_neg hup, hs, bind,
    Except.bind, pure, Except.pure]
  refine ⟨_, rfl, ?_, ?_, rfl, rfl, rfl, ?_⟩
  · show (if totalDuration (db.usage_sessions.filter
        (fun s => decide (s.patient_id = pid))) > 0 then _ else (0 : ℚ)) = _
    by_cases hpos : totalDuration
        (db.usage_sessions.filter (fun s => decide (s.patient_id = pid))) > 0
    · rw [if_pos hpos]
    · rw [if_neg hpos]
      have hz : totalDuration
          (db.usage_sessions.filter (fun s => decide (s.patient_id = pid))) = 0 :=
        le_antisymm (not_lt.1 hpos) h0
      rw [hz]
      norm_num
  · show min 100 (_ / ((30 : ℚ) * 8 * 60) * 100) = min 100 (_ / ((30 : ℚ) * 480) * 100)
    norm_num
  · intro hM
    have hnomatch : ∀ s ∈ db.usage_sessions, ¬(s.patient_id = pid) := by
      intro s hsmem
      simpa using List.filter_eq_nil_iff.1 hM s hsmem
    have hl1 : sessionsSince db pid (now - 10080) = [] := by
      unfold sessionsSince
      have hemp : db.usage_sessions.filter
          (fun s => decide (s.patient_id = pid ∧ now - 10080 ≤ s.created_at)) = [] := by
        rw [List.filter_eq_nil_iff]
        intro s hsmem
        simp [hnomatch s hsmem]
      rw [hemp]
      rfl
    have hl2 : sessionsBetween db pid (now - 20160) (now - 10080) = [] := by
      unfold sessionsBetween
      have hemp : db.usage_sessions.filter
          (fun s => decide (s.patient_id = pid ∧ now - 20160 ≤ s.created_at ∧
            s.created_at < now - 10080)) = [] := by
        rw [List.filter_eq_nil_iff]
        intro s hsmem
        simp [hnomatch s hsmem]
      rw [hemp]
      rfl
    refine ⟨by rw [hM]; rfl, ?_, ?_⟩
    · show min 100 ((totalDuration (db.usage_sessions.filter
        (fun s => decide (s.patient_id = pid))) : ℚ) / (30 * 8 * 60) * 100) = 0
      rw [hM]
      norm_num [totalDuration]
    · show trendOf (totalDuration (sessionsSince db pid (now - 10080)))
        (totalDuration (sessionsBetween db pid (now - 20160) (now - 10080))) = _
      rw [hl1, hl2]
      rfl

/-- The query time of the C1 scenario. -/
def nowC1 : ℤ := 86400

/-- A one-minute session created one day before `nowC1`: inside the 30-day
window. -/
def s1C1 : DeviceUsageSession :=
  { patient_id := "p", device_id := "d", start_time := 84959, end_time := 84960,
    duration_minutes := 1, time_of_day := "day", compliance_score := 5/24,
    created_at := 84960 }

/-- A one-minute session created exactly at `nowC1`: the latest one. -/
def s2C1 : DeviceUsageSession :=
  { patient_id := "p", device_id := "d", start_time := 86399, end_time := 86400,
    duration_minutes := 1, time_of_day := "day", compliance_score := 5/24,
    created_at := 86400 }

/-- 1001 stored sessions, all inside the last 30 days; the newest one is
stored last. -/
def dbC1 : DB :=
  { users := [{ id := "p", name := "Alice", user_type := "patient" }]
    bluetooth_devices := []
    usage_sessions := List.replicate 1000 s1C1 ++ [s2C1]
    store_down := [] }

/-- C1 counterexample: every stored session is in the last 30 days and the
maximum `created_at` over the set is 86400, yet `get_patient_compliance`
reports `last_session = 84960`: the 1000-record cap drops the newest session,
so the claim fails for sets of more than 1000 sessions. -/
theorem c1_counterexample :
    dbC1.usage_sessions.all
      (fun s => decide (s.patient_id = "p" ∧ nowC1 - 43200 ≤ s.created_at ∧
        s.created_at ≤ nowC1)) = true
    ∧ (dbC1.usage_sessions.map (fun s => s.created_at)).max? = some nowC1
    ∧ (get_patient_compliance dbC1 nowC1 "p").map (fun r => r.last_session) =
        Except.ok (some 84960)
    ∧ (84960 : ℤ) ≠ nowC1 := by
  refine ⟨?_, ?_, ?_, by decide⟩
  · rw [List.all_eq_true]
    intro s hsmem
    rcases List.mem_append.1 hsmem with h | h
    · rw [List.eq_of_mem_replicate h]; decide
    · simp only [List.mem_singleton] at h; subst h; decide
  · show ((List.replicate 1000 s1C1 ++ [s2C1]).map (fun s => s.created_at)).max? =
      some nowC1
    rw [List.map_append, List.map_replicate]
    rw [show (1000 : ℕ) = 999 + 1 from rfl, List.replicate_succ, List.cons_append]
    show some (((List.replicate 999 s1C1.created_at) ++ [s2C1.created_at]).foldl max
      s1C1.created_at) = some nowC1
    rw [List.foldl_append, foldl_max_replicate]
    show some (max s1C1.created_at s2C1.created_at) = some nowC1
    decide
  · have hs : sessionsSince dbC1 "p" (nowC1 - 43200) = List.replicate 1000 s1C1 := by
      unfold sessionsSince dbC1
      rw [List.filter_eq_self.mpr]
      · rw [List.take_append_eq_append_take, List.take_replicate, List.length_replicate]
        norm_num
      · intro a ha
        rcases List.mem_append.1 ha with h | h
        · rw [List.eq_of_mem_replicate h]; decide
        · simp only [List.mem_singleton] at h; subst h; decide
    have hl : sessionsSince dbC1 "p" (nowC1 - 10080) = List.replicate 1000 s1C1 := by
      unfold sessionsSince dbC1
      rw [List.filter_eq_self.mpr]
      · rw [List.take_append_eq_append_take, List.take_replicate, List.length_replicate]
        norm_num
      · intro a ha
        rcases List.mem_append.1 ha with h | h
        · rw [List.eq_of_mem_replicate h]; decide
        · simp only [List.mem_singleton] at h; subst h; decide
    have hp : sessionsBetween dbC1 "p" (nowC1 - 20160) (nowC1 - 10080) = [] := by
      unfold sessionsBetween dbC1
      rw [List.filter_eq_nil_iff.mpr]
      · rfl
      · intro a ha
        rcases List.mem_append.1 ha with h | h
        · rw [List.eq_of_mem_replicate h]; decide
        · simp only [List.mem_singleton] at h; subst h; decide
    have hu : findOneUser dbC1 "p" =
        some { id := "p", name := "Alice", user_type := "patient" } := rfl
    simp only [get_patient_compliance, calculate_usage_trend, hu, hs, hl, hp, fetch]
    simp only [dbC1, List.mem_nil_iff, if_false, Except.bind, Except.map, bind, pure,
      Except.pure]
    rw [List.map_replicate, max_replicate_succ 999]
    rfl

/-- C1 witness: the zero-session patient gets the zero-valued summary with the
stable/0 trend. -/
theorem c1_witness :
    (findOneUser dbOnePatient "p" = some aliceUser)
    ∧ ("p" ∉ dbOnePatient.store_down)
    ∧ ∃ r, get_patient_compliance dbOnePatient 86400 "p" = Except.ok r
        ∧ r.total_sessions = 0 ∧ r.compliance_percentage = 0
        ∧ r.usage_trend = { direction := "stable", percentage := 0 } := by
  have hu : findOneUser dbOnePatient "p" = some aliceUser := rfl
  have hup : "p" ∉ dbOnePatient.store_down := by decide
  have hM : dbOnePatient.usage_sessions.filter
      (fun s => decide (s.patient_id = "p")) = [] := rfl
  obtain ⟨r, hok, _, _, _, _, _, hzero⟩ :=
    c1_compliance_aggregates dbOnePatient 86400 "p" aliceUser hu hup
      (by intro s hsmem; cases hsmem)
      (by rw [hM]; norm_num)
      (by intro s hsmem; cases hsmem)
  obtain ⟨hz1, hz2, hz3⟩ := hzero hM
  exact ⟨hu, hup, r, hok, hz1, hz2, hz3⟩

end Sandy
